import Mathlib

/-!
Verification of the gatekeeper visitor-screening system.

Shallow embedding of the core logic of `src/text_agent`:
the vision debounce pipeline (`src/processing/image_processor.py`),
the conversation orchestrator nodes (`src/nodes/*.py`), and the
decision engine (`src/nodes/decision_nodes.py`).  External
collaborators (the LLM calls, file I/O, prompt data files) are
modelled as explicit parameters/oracles; everything else follows the
Python source line by line.
-/

namespace Gatekeeper

/-! ## Vision debounce pipeline (`src/processing/image_processor.py`) -/

/-- `FACE_QUEUE_LIMIT` from `image_processor.py`. -/
def FACE_QUEUE_LIMIT : Nat := 3

/-- `LANGGRAPH_COOLDOWN_SECONDS` from `image_processor.py`. -/
def LANGGRAPH_COOLDOWN_SECONDS : ℚ := 10

/-- The window update performed by `update_face_detection`:
`session["face_detected"].append(face_detected)` followed by
`session["face_detected"] = session["face_detected"][-FACE_QUEUE_LIMIT:]`. -/
def pushFace (w : List Bool) (b : Bool) : List Bool :=
  let w1 := w ++ [b]
  w1.drop (w1.length - FACE_QUEUE_LIMIT)

/-- The emission condition of `update_face_detection`:
`len(face_values) == FACE_QUEUE_LIMIT and all(value == False for value in face_values)`. -/
def noFaceEvent (w : List Bool) : Bool :=
  w.length == FACE_QUEUE_LIMIT && w.all (fun v => v == false)

/-- `update_face_detection` restricted to the per-session face window:
returns the updated window and whether the "no face" Socket.IO event is
emitted on this call (the branch that clears the log, deactivates the
session, and enqueues the `no_face_detected` event). -/
def update_face_detection (w : List Bool) (b : Bool) : List Bool × Bool :=
  let w2 := pushFace w b
  (w2, noFaceEvent w2)

/-- Window after a sequence of frame results, starting from window `w`
(a fresh session starts with `"face_detected": []`). -/
def runFaceWindow (w : List Bool) (frames : List Bool) : List Bool :=
  frames.foldl pushFace w

/-- Per-frame "no face" emissions along a sequence of frame results. -/
def noFaceEvents (w : List Bool) : List Bool → List Bool
  | [] => []
  | b :: fs =>
    let r := update_face_detection w b
    r.2 :: noFaceEvents r.1 fs

/-- One consumer drain cycle of `image_processing_function`: drain the
whole queue into `temp_images`, keep the last element for analysis,
and `image_queue.put` every other element back, in their original
order.  Returns the analyzed item and the queue contents afterwards
(queues are lists with the head being the oldest element). -/
def image_processing_cycle {α : Type} (q : List α) : Option α × List α :=
  if q.isEmpty then (none, q)
  else (q.getLast?, q.dropLast)

/-- Repeated drain cycles of `image_processing_function` until the queue
is empty, listing the analyzed items in order of analysis. -/
def drainAll {α : Type} : List α → List α
  | [] => []
  | a :: as => (a :: as).getLast (by simp) :: drainAll (a :: as).dropLast
  termination_by l => l.length
  decreasing_by simp [List.length_dropLast]

/-- `can_trigger_langgraph`: allowed when the session has no recorded
trigger, or at least `LANGGRAPH_COOLDOWN_SECONDS` have elapsed since
the last one.  Timestamps are rational seconds. -/
def can_trigger_langgraph (last : Option ℚ) (now : ℚ) : Bool :=
  match last with
  | none => true
  | some t => decide (LANGGRAPH_COOLDOWN_SECONDS ≤ now - t)

/-- A frame as seen by the escalation logic of `threat_detector`:
its arrival time and the validated vision fields the trigger reads. -/
structure VisionFrame where
  time : ℚ
  threat_level : String
  dangerous_object : Bool

/-- The escalation step of `threat_detector`: if
`threat_level == "high" and dangerous_object == True` and the cooldown
allows it, emit the `trigger_langgraph` event and record the trigger
time (`update_langgraph_trigger_time`); otherwise leave the recorded
time unchanged. -/
def threat_trigger_step (last : Option ℚ) (f : VisionFrame) : Option ℚ × Bool :=
  if f.threat_level = "high" ∧ f.dangerous_object = true then
    if can_trigger_langgraph last f.time then (some f.time, true)
    else (last, false)
  else (last, false)

/-- Times at which escalation events are emitted along a sequence of
analyzed frames, starting from recorded trigger state `last`. -/
def escalationTimes (last : Option ℚ) : List VisionFrame → List ℚ
  | [] => []
  | f :: fs =>
    let r := threat_trigger_step last f
    if r.2 then f.time :: escalationTimes r.1 fs
    else escalationTimes r.1 fs

/-! ## Window characterization lemmas -/

theorem pushFace_length_le (w : List Bool) (b : Bool) :
    (pushFace w b).length ≤ FACE_QUEUE_LIMIT := by
  simp only [pushFace, List.length_drop, List.length_append, List.length_cons]
  omega

theorem runFaceWindow_eq (frames : List Bool) :
    ∀ w : List Bool, w.length ≤ FACE_QUEUE_LIMIT →
      runFaceWindow w frames =
        (w ++ frames).drop ((w ++ frames).length - FACE_QUEUE_LIMIT) := by
  induction frames with
  | nil =>
    intro w hw
    simp only [runFaceWindow, List.foldl_nil, List.append_nil]
    rw [Nat.sub_eq_zero_of_le hw, List.drop_zero]
  | cons b fs ih =>
    intro w hw
    have hstep : runFaceWindow w (b :: fs) = runFaceWindow (pushFace w b) fs := rfl
    rw [hstep, ih (pushFace w b) (pushFace_length_le w b)]
    simp only [pushFace]
    rw [← List.drop_append_of_le_length
      (show (w ++ [b]).length - FACE_QUEUE_LIMIT ≤ (w ++ [b]).length by omega)]
    rw [List.drop_drop]
    have hassoc : (w ++ [b]) ++ fs = w ++ b :: fs := by simp
    rw [hassoc]
    congr 1
    simp only [List.length_drop, List.length_append, List.length_cons, List.length_nil]
    omega

theorem drainAll_eq_reverse {α : Type} : ∀ q : List α, drainAll q = q.reverse
  | [] => by rw [drainAll]; rfl
  | a :: as => by
    rw [drainAll]
    rw [drainAll_eq_reverse ((a :: as).dropLast)]
    conv_rhs => rw [← List.dropLast_append_getLast (l := a :: as) (by simp)]
    rw [List.reverse_append]
    simp
  termination_by q => q.length
  decreasing_by simp [List.length_dropLast]

theorem escalationTimes_invariant : ∀ (fs : List VisionFrame) (last : Option ℚ),
    List.Pairwise (fun a b => a + LANGGRAPH_COOLDOWN_SECONDS ≤ b) (escalationTimes last fs) ∧
    (∀ t : ℚ, last = some t →
      ∀ e ∈ escalationTimes last fs, t + LANGGRAPH_COOLDOWN_SECONDS ≤ e) := by
  intro fs
  induction fs with
  | nil => intro last; simp [escalationTimes]
  | cons f fs ih =>
    intro last
    by_cases hq : f.threat_level = "high" ∧ f.dangerous_object = true
    · by_cases hc : can_trigger_langgraph last f.time = true
      · have hstep : escalationTimes last (f :: fs) =
            f.time :: escalationTimes (some f.time) fs := by
          simp [escalationTimes, threat_trigger_step, hq, hc]
        rw [hstep]
        constructor
        · exact List.pairwise_cons.mpr ⟨(ih (some f.time)).2 f.time rfl, (ih (some f.time)).1⟩
        · intro t ht e he
          subst ht
          have hdist : t + LANGGRAPH_COOLDOWN_SECONDS ≤ f.time := by
            simp only [can_trigger_langgraph, decide_eq_true_eq] at hc
            linarith
          rcases List.mem_cons.mp he with rfl | he'
          · exact hdist
          · have := (ih (some f.time)).2 f.time rfl e he'
            have h10 : (0 : ℚ) ≤ LANGGRAPH_COOLDOWN_SECONDS := by norm_num [LANGGRAPH_COOLDOWN_SECONDS]
            linarith
      · have hstep : escalationTimes last (f :: fs) = escalationTimes last fs := by
          simp [escalationTimes, threat_trigger_step, hq, hc]
        rw [hstep]; exact ih last
    · have hstep : escalationTimes last (f :: fs) = escalationTimes last fs := by
        simp [escalationTimes, threat_trigger_step, hq]
      rw [hstep]; exact ih last

/-! ## Claim theorems: vision pipeline -/

/-- C1 counterexample: starting from a fresh session, four consecutive
`false` frames form a single contiguous all-false run, yet the code
emits the "no face" event twice — on the third AND on the fourth
frame.  The emission condition has no transition check, so it re-fires
on every subsequent false frame, contradicting "exactly once per
contiguous all-false run". -/
theorem C1_noface_refires_counterexample :
    noFaceEvents ([] : List Bool) [false, false, false, false] =
      [false, false, true, true] := by decide

/-- C1 (amended): the "no face" event fires at a frame exactly when at
least `FACE_QUEUE_LIMIT` frames have been processed and the last
`FACE_QUEUE_LIMIT` results (including the current one) are all false —
i.e. it fires on EVERY false frame from the K-th consecutive false
onward, not only on the transition into the all-false state. -/
theorem C1_noface_fires_iff (p : List Bool) (b : Bool) :
    (update_face_detection (runFaceWindow [] p) b).2 = true ↔
      (FACE_QUEUE_LIMIT ≤ p.length + 1 ∧
       ∀ x ∈ (p ++ [b]).drop (p.length + 1 - FACE_QUEUE_LIMIT), x = false) := by
  have hwin : pushFace (runFaceWindow [] p) b = runFaceWindow [] (p ++ [b]) := by
    simp [runFaceWindow, List.foldl_append]
  have heq := runFaceWindow_eq (p ++ [b]) [] (by simp [FACE_QUEUE_LIMIT])
  simp only [List.nil_append] at heq
  simp only [update_face_detection, noFaceEvent, hwin, heq]
  rw [Bool.and_eq_true, beq_iff_eq, List.all_eq_true]
  constructor
  · rintro ⟨hlen, hall⟩
    simp only [List.length_drop, List.length_append, List.length_cons, List.length_nil] at hlen
    constructor
    · simp only [FACE_QUEUE_LIMIT] at hlen ⊢; omega
    · intro x hx
      have := hall x (by simpa [List.length_append] using hx)
      simpa using this
  · rintro ⟨hlen, hall⟩
    constructor
    · simp only [List.length_drop, List.length_append, List.length_cons, List.length_nil]
      simp only [FACE_QUEUE_LIMIT] at hlen ⊢; omega
    · intro x hx
      simp only [beq_iff_eq]
      exact hall x (by simpa [List.length_append] using hx)

/-- C2 counterexample: with two pending items `[1, 2]` (1 oldest), one
drain cycle analyzes the latest item `2` but PUTS the other item back
on the queue instead of discarding it, and that item IS analyzed on
the next cycle — contradicting "discards all the other pending items
(they are not analyzed later and are not returned to the queue)". -/
theorem C2_items_put_back_counterexample :
    image_processing_cycle [1, 2] = (some 2, [1]) ∧
    image_processing_cycle [1] = (some 1, ([] : List Nat)) := by decide

/-- C2 (amended): one consumer drain cycle removes the entire queue,
analyzes exactly the most recently enqueued item, and puts every other
pending item back on the queue in its original order; the put-back
items are analyzed in later cycles, so repeated cycles analyze all
items in newest-first order. -/
theorem C2_drain_cycle_latest_wins {α : Type} (q : List α) (h : q ≠ []) :
    (image_processing_cycle q).1 = some (q.getLast h) ∧
    (image_processing_cycle q).2 = q.dropLast ∧
    drainAll q = q.reverse := by
  refine ⟨?_, ?_, drainAll_eq_reverse q⟩
  · simp [image_processing_cycle, h, List.getLast?_eq_getLast q h]
  · simp [image_processing_cycle, h]

/-- Witness for `C2_drain_cycle_latest_wins` at the concrete queue `[1, 2]`. -/
theorem C2_drain_cycle_latest_wins_witness :
    (image_processing_cycle [1, 2]).1 = some ([1, 2].getLast (by decide)) ∧
    (image_processing_cycle [1, 2]).2 = [1, 2].dropLast ∧
    drainAll [1, 2] = [2, 1] :=
  C2_drain_cycle_latest_wins [1, 2] (by decide)

/-- C6 (confirmed): along any sequence of analyzed frames, starting
from a session with no recorded trigger, any two escalation-event
emission times are at least `LANGGRAPH_COOLDOWN_SECONDS` (= 10s)
apart; hence every cooldown interval contains at most one escalation
per session, regardless of how many qualifying high-threat /
dangerous-object frames arrive within it. -/
theorem C6_escalation_cooldown (fs : List VisionFrame) :
    List.Pairwise (fun a b => a + LANGGRAPH_COOLDOWN_SECONDS ≤ b)
      (escalationTimes none fs) :=
  (escalationTimes_invariant fs none).1

/-- Witness for `C6_escalation_cooldown` on a concrete burst of
qualifying frames at t = 0, 5, 12 seconds. -/
theorem C6_escalation_cooldown_witness :
    List.Pairwise (fun a b => a + LANGGRAPH_COOLDOWN_SECONDS ≤ b)
      (escalationTimes none
        [⟨0, "high", true⟩, ⟨5, "high", true⟩, ⟨12, "high", true⟩]) :=
  C6_escalation_cooldown [⟨0, "high", true⟩, ⟨5, "high", true⟩, ⟨12, "high", true⟩]

/-- Witness for `C1_noface_fires_iff`: after two false frames a third
false frame fires the event (window full, all false). -/
theorem C1_noface_fires_witness :
    (update_face_detection (runFaceWindow [] [false, false]) false).2 = true :=
  (C1_noface_fires_iff [false, false] false).mpr (by decide)

/-! ## Visitor profile and orchestrator processing nodes
(`src/core/state.py`, `src/nodes/processing_nodes.py`)

Profile fields are `Option String`: `none` models Python `None`
("Unset"), `some "-1"` is the sentinel ("Unknown"), and any other
`some v` is a *Value*. -/

structure VisitorProfile where
  name : Option String
  purpose : Option String
  contact_person : Option String
  threat_level : Option String
  affiliation : Option String
  id_verified : Option Bool
  authenticated : Bool
deriving Repr, DecidableEq

/-- Python `str.split()`: split on whitespace runs, discarding empties. -/
def pySplitWhitespace (s : String) : List String :=
  (s.split Char.isWhitespace).filter (fun w => w ≠ "")

/-- Double quote (U+0022) or single quote (U+0027). -/
def isQuoteChar (c : Char) : Bool := c = Char.ofNat 34 ∨ c = Char.ofNat 39

/-- ASCII model of Python `str.lower()` applied per character. -/
def pyCharToLower (c : Char) : Char :=
  if 65 ≤ c.toNat ∧ c.toNat ≤ 90 then Char.ofNat (c.toNat + 32) else c

/-- ASCII model of Python `str.lower()`. -/
def pyToLower (s : String) : String :=
  String.mk (s.toList.map pyCharToLower)

/-- Python `str.strip()`: remove whitespace from both ends. -/
def pyStrip (s : String) : String :=
  let l := s.toList.dropWhile Char.isWhitespace
  String.mk (l.reverse.dropWhile Char.isWhitespace).reverse

/-- Python `value.strip("\x22\x27")`: strip quote characters from both ends. -/
def stripQuotes (s : String) : String :=
  let l := s.toList.dropWhile isQuoteChar
  String.mk (l.reverse.dropWhile isQuoteChar).reverse

/-- The word-limiting step of `check_visitor_profile_node`:
`words = value.split(); if len(words) > 3: value = join(words[-3:])`. -/
def limitWords (v : String) : String :=
  let ws := pySplitWhitespace v
  if ws.length > 3 then String.intercalate " " (ws.drop (ws.length - 3)) else v

/-- The acceptance test of `check_visitor_profile_node`:
`value and value != "-1" and value.lower() != "null"`. -/
def acceptExtracted (v : String) : Bool :=
  v ≠ "" && v ≠ "-1" && pyToLower v ≠ "null"

/-- The cleaning applied to an accepted extracted value: strip quotes,
then limit to the last 3 words except for `contact_person`. -/
def cleanExtracted (field v : String) : String :=
  let v1 := stripQuotes v
  if field = "contact_person" then v1 else limitWords v1

/-- Per-field update of `check_visitor_profile_node`: only fields that
are `None` are in `missing_fields`; an extracted value is written only
if it passes the acceptance test. -/
def updateMissingField (ext : String → Option String) (field : String)
    (cur : Option String) : Option String :=
  match cur with
  | some v => some v
  | none =>
    match ext field with
    | none => none
    | some v => if acceptExtracted v then some (cleanExtracted field v) else none

/-- `check_visitor_profile_node`: LLM extraction of the missing fields
among name/purpose/contact_person/affiliation.  `ext = none` models
the whole-extraction failure path (JSON error: no field changes);
`ext f = none` models a field absent from `extracted_fields`. -/
def check_visitor_profile_node (ext : Option (String → Option String))
    (p : VisitorProfile) : VisitorProfile :=
  match ext with
  | none => p
  | some e =>
    { p with
      name := updateMissingField e "name" p.name
      purpose := updateMissingField e "purpose" p.purpose
      contact_person := updateMissingField e "contact_person" p.contact_person
      affiliation := updateMissingField e "affiliation" p.affiliation }

/-- `analyze_threat_level_node`: re-runs vision analysis whenever
`threat_level` is in `[None, "-1", "low", "medium"]` and overwrites
the field with the vision result. `visionThreat = none` models any
failure (image conversion, LLM call, JSON parse): no change;
`visionThreat = some tl` is `vision_data.get("threat_level", "-1")`. -/
def analyze_threat_level_node (visionThreat : Option String)
    (p : VisitorProfile) : VisitorProfile :=
  if p.threat_level = none ∨ p.threat_level = some "-1" ∨
     p.threat_level = some "low" ∨ p.threat_level = some "medium" then
    match visionThreat with
    | some tl => { p with threat_level := some tl }
    | none => p
  else p

/-- `validate_contact_person`: pure validation against the contact
directory `CONTACTS` (here its key list, in iteration order): exact
match keeps the value, a case-insensitive match replaces it with the
known spelling, otherwise the field is reset to `None`. -/
def validate_contact_person (contacts : List String)
    (p : VisitorProfile) : VisitorProfile :=
  match p.contact_person with
  | none => { p with contact_person := none }
  | some cp =>
    if cp = "" ∨ cp = "-1" then { p with contact_person := none }
    else if contacts.contains cp then { p with contact_person := some cp }
    else
      match contacts.find? (fun k => pyToLower k == pyToLower cp) with
      | some k => { p with contact_person := some k }
      | none => { p with contact_person := none }

/-- The per-field test of `check_visitor_profile_condition`:
`field is not None and field != "-1"`. -/
def isValue : Option String → Bool
  | none => false
  | some s => s != "-1"

/-- `check_visitor_profile_condition`: returns the routing label and
the profile with `id_verified` set as a side effect. -/
def check_visitor_profile_condition (p : VisitorProfile) :
    String × VisitorProfile :=
  let all_fields_complete :=
    isValue p.name && isValue p.purpose && isValue p.contact_person &&
    isValue p.threat_level && isValue p.affiliation
  if all_fields_complete then ("complete", { p with id_verified := some true })
  else ("not_complete", { p with id_verified := some false })

theorem updateMissingField_of_ne_none (e : String → Option String)
    (f : String) (cur : Option String) (h : cur ≠ none) :
    updateMissingField e f cur = cur := by
  cases cur with
  | none => exact absurd rfl h
  | some v => rfl

theorem isValue_eq_true (v : Option String) :
    isValue v = true ↔ v ≠ none ∧ v ≠ some "-1" := by
  cases v <;> simp [isValue]

/-! ## Claim theorems: profile invariants and completeness -/

/-- C3 counterexample: a profile whose `threat_level` holds the Value
`"low"` (non-None, non-sentinel) has it overwritten to `"high"` by
`analyze_threat_level_node` before any reset — the node's guard
re-runs vision analysis for `"low"` and `"medium"`, not only for
missing values.  This contradicts "once the field holds a Value it is
never overwritten until the profile is reset". -/
theorem C3_value_overwritten_counterexample :
    (analyze_threat_level_node (some "high")
      ⟨some "Alice", some "meeting", some "Mehmet", some "low",
       some "ACME", some false, false⟩).threat_level = some "high" ∧
    (some "low" : Option String) ≠ none ∧
    (some "low" : Option String) ≠ some "-1" ∧
    (validate_contact_person ["Mehmet"]
      ⟨some "Alice", some "meeting", some "Bob", some "low",
       some "ACME", some false, false⟩).contact_person = none := by
  refine ⟨?_, by decide, by decide, ?_⟩ <;> decide

/-- C3 (amended): for name, purpose, and affiliation the invariant
holds — once non-None they are never overwritten by the extraction,
threat-analysis, or contact-validation nodes until the profile is
reset.  It fails for `threat_level`, which is re-analyzed (and may be
overwritten) whenever it holds None, `"-1"`, `"low"` or `"medium"` —
only `"high"` (or any other value) is stable — and for
`contact_person`, which validation may replace with a case-corrected
known contact or reset to None. -/
theorem C3_field_stability (ext : String → Option String)
    (vt : Option String) (contacts : List String) (p : VisitorProfile) :
    (p.name ≠ none → (check_visitor_profile_node (some ext) p).name = p.name) ∧
    (p.purpose ≠ none → (check_visitor_profile_node (some ext) p).purpose = p.purpose) ∧
    (p.contact_person ≠ none →
      (check_visitor_profile_node (some ext) p).contact_person = p.contact_person) ∧
    (p.affiliation ≠ none →
      (check_visitor_profile_node (some ext) p).affiliation = p.affiliation) ∧
    (check_visitor_profile_node (some ext) p).threat_level = p.threat_level ∧
    (analyze_threat_level_node vt p).name = p.name ∧
    (analyze_threat_level_node vt p).purpose = p.purpose ∧
    (analyze_threat_level_node vt p).contact_person = p.contact_person ∧
    (analyze_threat_level_node vt p).affiliation = p.affiliation ∧
    (p.threat_level = some "high" →
      (analyze_threat_level_node vt p).threat_level = some "high") ∧
    (validate_contact_person contacts p).name = p.name ∧
    (validate_contact_person contacts p).purpose = p.purpose ∧
    (validate_contact_person contacts p).threat_level = p.threat_level ∧
    (validate_contact_person contacts p).affiliation = p.affiliation := by
  have hanalyze : (analyze_threat_level_node vt p).name = p.name ∧
      (analyze_threat_level_node vt p).purpose = p.purpose ∧
      (analyze_threat_level_node vt p).contact_person = p.contact_person ∧
      (analyze_threat_level_node vt p).affiliation = p.affiliation := by
    unfold analyze_threat_level_node
    split
    · cases vt <;> exact ⟨rfl, rfl, rfl, rfl⟩
    · exact ⟨rfl, rfl, rfl, rfl⟩
  have hvalidate : (validate_contact_person contacts p).name = p.name ∧
      (validate_contact_person contacts p).purpose = p.purpose ∧
      (validate_contact_person contacts p).threat_level = p.threat_level ∧
      (validate_contact_person contacts p).affiliation = p.affiliation := by
    unfold validate_contact_person
    rcases p.contact_person with _ | cp
    · exact ⟨rfl, rfl, rfl, rfl⟩
    · dsimp only
      split
      · exact ⟨rfl, rfl, rfl, rfl⟩
      · split
        · exact ⟨rfl, rfl, rfl, rfl⟩
        · split <;> exact ⟨rfl, rfl, rfl, rfl⟩
  refine ⟨?_, ?_, ?_, ?_, ?_, hanalyze.1, hanalyze.2.1, hanalyze.2.2.1, hanalyze.2.2.2,
    ?_, hvalidate.1, hvalidate.2.1, hvalidate.2.2.1, hvalidate.2.2.2⟩
  · intro h; exact updateMissingField_of_ne_none ext "name" p.name h
  · intro h; exact updateMissingField_of_ne_none ext "purpose" p.purpose h
  · intro h; exact updateMissingField_of_ne_none ext "contact_person" p.contact_person h
  · intro h; exact updateMissingField_of_ne_none ext "affiliation" p.affiliation h
  · rfl
  · intro h
    unfold analyze_threat_level_node
    rw [if_neg]
    · simp [h]
    · rw [h]; decide

/-- Witness for `C3_field_stability` at a concrete profile whose
fields all hold Values and whose `threat_level` is `"high"`. -/
theorem C3_field_stability_witness :
    (check_visitor_profile_node (some (fun _ => some "X"))
      ⟨some "Alice", some "meeting", some "Mehmet", some "high",
       some "ACME", some false, false⟩).name = some "Alice" ∧
    (analyze_threat_level_node (some "low")
      ⟨some "Alice", some "meeting", some "Mehmet", some "high",
       some "ACME", some false, false⟩).threat_level = some "high" ∧
    (validate_contact_person []
      ⟨some "Alice", some "meeting", some "Mehmet", some "high",
       some "ACME", some false, false⟩).threat_level = some "high" := by
  have h := C3_field_stability (fun _ => some "X") (some "low") []
    ⟨some "Alice", some "meeting", some "Mehmet", some "high",
     some "ACME", some false, false⟩
  exact ⟨(h.1 (by decide)).trans rfl,
    (h.2.2.2.2.2.2.2.2.2.1 rfl),
    (h.2.2.2.2.2.2.2.2.2.2.2.2.1).trans rfl⟩

/-- C9 (confirmed): the completeness check returns `"complete"` iff all
five tracked fields (name, purpose, contact_person, threat_level,
affiliation) are non-None and differ from the sentinel `"-1"`, and as
a side effect it sets `id_verified` to `true` exactly when the profile
is complete and to `false` otherwise, leaving all other fields
unchanged. -/
theorem C9_completeness_iff (p : VisitorProfile) :
    ((check_visitor_profile_condition p).1 = "complete" ↔
      ((p.name ≠ none ∧ p.name ≠ some "-1") ∧
       (p.purpose ≠ none ∧ p.purpose ≠ some "-1") ∧
       (p.contact_person ≠ none ∧ p.contact_person ≠ some "-1") ∧
       (p.threat_level ≠ none ∧ p.threat_level ≠ some "-1") ∧
       (p.affiliation ≠ none ∧ p.affiliation ≠ some "-1"))) ∧
    ((check_visitor_profile_condition p).2.id_verified = some true ↔
      (check_visitor_profile_condition p).1 = "complete") ∧
    ((check_visitor_profile_condition p).1 ≠ "complete" →
      (check_visitor_profile_condition p).2.id_verified = some false) ∧
    (check_visitor_profile_condition p).2.name = p.name ∧
    (check_visitor_profile_condition p).2.purpose = p.purpose ∧
    (check_visitor_profile_condition p).2.contact_person = p.contact_person ∧
    (check_visitor_profile_condition p).2.threat_level = p.threat_level ∧
    (check_visitor_profile_condition p).2.affiliation = p.affiliation := by
  unfold check_visitor_profile_condition
  by_cases hb : (isValue p.name && isValue p.purpose && isValue p.contact_person &&
      isValue p.threat_level && isValue p.affiliation) = true
  · rw [if_pos hb]
    simp only [Bool.and_eq_true, isValue_eq_true] at hb
    obtain ⟨⟨⟨⟨h1, h2⟩, h3⟩, h4⟩, h5⟩ := hb
    refine ⟨?_, by simp, by simp, rfl, rfl, rfl, rfl, rfl⟩
    simp only [true_iff]
    exact ⟨h1, h2, h3, h4, h5⟩
  · rw [if_neg hb]
    refine ⟨?_, by simp, fun _ => rfl, rfl, rfl, rfl, rfl, rfl⟩
    constructor
    · intro h; simp at h
    · rintro ⟨h1, h2, h3, h4, h5⟩
      have hall : (isValue p.name && isValue p.purpose && isValue p.contact_person &&
          isValue p.threat_level && isValue p.affiliation) = true := by
        simp only [Bool.and_eq_true, isValue_eq_true]
        exact ⟨⟨⟨⟨h1, h2⟩, h3⟩, h4⟩, h5⟩
      exact absurd hall hb

/-- Witness for `C9_completeness_iff`: a concrete profile with all five
fields holding Values is reported complete with `id_verified = true`. -/
theorem C9_completeness_iff_witness :
    (check_visitor_profile_condition
      ⟨some "Alice", some "meeting", some "Mehmet", some "low",
       some "ACME", none, false⟩).1 = "complete" ∧
    (check_visitor_profile_condition
      ⟨some "Alice", some "meeting", some "Mehmet", some "low",
       some "ACME", none, false⟩).2.id_verified = some true := by
  have h := C9_completeness_iff
    ⟨some "Alice", some "meeting", some "Mehmet", some "low",
     some "ACME", none, false⟩
  have hc : (check_visitor_profile_condition
      ⟨some "Alice", some "meeting", some "Mehmet", some "low",
       some "ACME", none, false⟩).1 = "complete" := h.1.mpr (by decide)
  exact ⟨hc, h.2.1.mpr hc⟩

/-! ## Session state and decision engine
(`src/core/state.py`, `src/nodes/decision_nodes.py`) -/

structure Message where
  role : String
  content : String
deriving Repr, DecidableEq

/-- The validated vision schema (`validate_vision_schema` output). -/
structure VisionSchema where
  face_detected : Bool
  angry_face : Bool
  dangerous_object : Bool
  threat_level : String
  details : String
deriving Repr, DecidableEq

/-- The LangGraph `State` TypedDict. -/
structure AgentState where
  messages : List Message
  visitor_profile : VisitorProfile
  decision : String
  decision_confidence : Option ℚ
  decision_reasoning : Option String
  vision_schema : Option VisionSchema
  user_input : String
  agent_response : String
  invalid_input : Bool
  session_active : Bool
  session_id : Option String
deriving Repr, DecidableEq

/-- An uncaught Python exception escaping a node. -/
inductive PyError where
  | valueError (msg : String)
  | keyError (key : String)
deriving Repr, DecidableEq

/-- Outcome of the decision-classification LLM call inside
`make_decision`'s `try` block: the call (or answer extraction) raised,
the content was not parseable JSON, or it parsed to a JSON object with
the given `decision` / `confidence` / `reasoning` entries (defaults
`""` / `0.0` / `"No reasoning provided"` already applied). -/
inductive DecisionLLMResult where
  | failure
  | malformed
  | parsed (decision : String) (confidence : ℚ) (reasoning : String)
deriving Repr, DecidableEq

/-- `decision_data.get("decision", "").strip().lower()`. -/
def pyNormalizeDecision (s : String) : String := pyToLower (pyStrip s)

def exceptIsOk {ε α : Type} : Except ε α → Bool
  | .ok _ => true
  | .error _ => false

/-- `make_decision` from `decision_nodes.py`.  External data and
collaborators are parameters: `decisions` is the key list of
`available_decisions`, `decisionMessages`/`fallbackUnclear`/
`fallbackError` come from the prompt data files, and
`cameraSidMap`/`getAuthorizedDoors`/`getGreeting` are the door lookup
used by the authenticated branch (`cameraSidMap` and
`get_authorized_doors` are referenced by the source but not defined
under it; a failed `cameraSidMap[sid]` lookup is the KeyError case).
Returns `Except`: `.error` is an uncaught exception — in particular
the explicit `raise ValueError("Vision schema is missing")` when
`state["vision_schema"] is None`. -/
def make_decision (decisions : List String)
    (decisionMessages : String → String)
    (fallbackUnclear fallbackError : String)
    (cameraSidMap : String → Option String)
    (getAuthorizedDoors : String → List String)
    (getGreeting : String → Option String)
    (llm : DecisionLLMResult)
    (st : AgentState) : Except PyError AgentState :=
  match st.vision_schema with
  | none => .error (.valueError "Vision schema is missing")
  | some vs =>
    if vs.threat_level = "high" then
      .ok { st with decision := "call_security", agent_response := "Security called" }
    else if st.visitor_profile.authenticated = true then
      let sid := match st.session_id with
        | none => ""
        | some s => s
      match cameraSidMap sid with
      | none => .error (.keyError sid)
      | some current_door =>
        let name := match st.visitor_profile.name with
          | none => ""
          | some n => n
        let response : Option String :=
          if (getAuthorizedDoors name).contains current_door then getGreeting name
          else some ("Hoşgeldiniz " ++ name ++
            ", sizi bu kapıdan alamıyoruz malesef. Hoşçakalın...")
        let st1 := { st with decision := "allow_request" }
        match response with
        | some r =>
          if r = "" then .ok { st1 with agent_response := "Debug: Hello authenticated user!!" }
          else .ok { st1 with agent_response := "Face recognition called (dummy): " ++ r }
        | none => .ok { st1 with agent_response := "Debug: Hello authenticated user!!" }
    else
      match llm with
      | .failure =>
        .ok { st with decision := "deny_request", decision_confidence := some 0,
                      agent_response := fallbackError }
      | .malformed =>
        .ok { st with decision := "deny_request", decision_confidence := some 0,
                      agent_response := fallbackError }
      | .parsed d c r =>
        let decision_result := pyNormalizeDecision d
        if decisions.contains decision_result then
          .ok { st with decision := decision_result, decision_confidence := some c,
                        decision_reasoning := some r,
                        agent_response := decisionMessages decision_result }
        else
          .ok { st with decision := "deny_request", decision_confidence := some 0,
                        agent_response := fallbackUnclear }

/-- Decision field of a node result, `none` on an uncaught exception. -/
def decisionOf (r : Except PyError AgentState) : Option String :=
  match r with
  | .ok s => some s.decision
  | .error _ => none

/-- Confidence field of a node result, `none` on an uncaught exception. -/
def confidenceOf (r : Except PyError AgentState) : Option (Option ℚ) :=
  match r with
  | .ok s => some s.decision_confidence
  | .error _ => none

/-! ## Claim theorems: decision engine -/

/-- C4 counterexample: `make_decision` on a state whose `vision_schema`
is `None` raises an uncaught `ValueError` (the source's explicit
`raise ValueError("Vision schema is missing")`), so not every
node-level failure is caught inside the node — contradicting "never
raises an uncaught exception ... for every input including a missing
(None) vision_schema". -/
theorem C4_uncaught_valueerror_counterexample :
    make_decision ["allow_request", "call_security", "deny_request"]
      (fun _ => "") "unclear" "error" (fun _ => none) (fun _ => []) (fun _ => none)
      DecisionLLMResult.failure
      ⟨[], ⟨none, none, none, none, none, none, false⟩, "", none, none,
        none, "hello", "", false, true, none⟩
      = Except.error (PyError.valueError "Vision schema is missing") := rfl

/-- C4 (amended): node failures are not all caught locally —
`make_decision` raises an uncaught ValueError whenever `vision_schema`
is None.  When a vision schema is present, `make_decision` never
raises on the high-threat path or for an unauthenticated visitor
(classification-call failures are caught and degrade the state);
only the authenticated branch can additionally fail on its
session-to-door lookup. -/
theorem C4_make_decision_ok_unless_vision_missing
    (decisions : List String) (decisionMessages : String → String)
    (fallbackUnclear fallbackError : String)
    (cameraSidMap : String → Option String)
    (getAuthorizedDoors : String → List String)
    (getGreeting : String → Option String)
    (llm : DecisionLLMResult) (st : AgentState) (vs : VisionSchema)
    (hvs : st.vision_schema = some vs)
    (hsafe : vs.threat_level = "high" ∨ st.visitor_profile.authenticated = false) :
    exceptIsOk (make_decision decisions decisionMessages fallbackUnclear fallbackError
      cameraSidMap getAuthorizedDoors getGreeting llm st) = true := by
  unfold make_decision
  rw [hvs]
  by_cases hth : vs.threat_level = "high"
  · simp [hth, exceptIsOk]
  · rcases hsafe with h | h
    · exact absurd h hth
    · simp only [if_neg hth, h, Bool.false_eq_true, if_false]
      cases llm with
      | failure => rfl
      | malformed => rfl
      | parsed d c r =>
        dsimp only
        split <;> rfl

/-- Witness for `C4_make_decision_ok_unless_vision_missing` at a
concrete unauthenticated state with a low-threat vision schema. -/
theorem C4_make_decision_ok_witness :
    exceptIsOk (make_decision ["allow_request", "call_security", "deny_request"]
      (fun _ => "") "unclear" "error" (fun _ => none) (fun _ => []) (fun _ => none)
      DecisionLLMResult.failure
      ⟨[], ⟨none, none, none, none, none, none, false⟩, "", none, none,
        some ⟨true, false, false, "low", ""⟩, "hello", "", false, true, none⟩) = true :=
  C4_make_decision_ok_unless_vision_missing _ _ _ _ _ _ _ _ _
    ⟨true, false, false, "low", ""⟩ rfl (Or.inr rfl)

/-- C5 (confirmed): in the classification path (vision schema present,
threat not high, visitor not authenticated), every failed call,
unparseable response, or decision value outside the allowed set makes
`make_decision` fail closed: `decision == "deny_request"` and
`decision_confidence == 0.0`. -/
theorem C5_fail_closed
    (decisions : List String) (decisionMessages : String → String)
    (fallbackUnclear fallbackError : String)
    (cameraSidMap : String → Option String)
    (getAuthorizedDoors : String → List String)
    (getGreeting : String → Option String)
    (llm : DecisionLLMResult) (st : AgentState) (vs : VisionSchema)
    (hvs : st.vision_schema = some vs)
    (hth : vs.threat_level ≠ "high")
    (hauth : st.visitor_profile.authenticated = false)
    (hbad : llm = DecisionLLMResult.failure ∨ llm = DecisionLLMResult.malformed ∨
      ∃ d c r, llm = DecisionLLMResult.parsed d c r ∧
        decisions.contains (pyNormalizeDecision d) = false) :
    decisionOf (make_decision decisions decisionMessages fallbackUnclear fallbackError
        cameraSidMap getAuthorizedDoors getGreeting llm st) = some "deny_request" ∧
    confidenceOf (make_decision decisions decisionMessages fallbackUnclear fallbackError
        cameraSidMap getAuthorizedDoors getGreeting llm st) = some (some 0) := by
  unfold make_decision
  rw [hvs]
  simp only [if_neg hth, hauth, Bool.false_eq_true, if_false]
  rcases hbad with h | h | ⟨d, c, r, h, hd⟩
  · subst h; exact ⟨rfl, rfl⟩
  · subst h; exact ⟨rfl, rfl⟩
  · subst h
    simp only [hd, Bool.false_eq_true, if_false]
    exact ⟨rfl, rfl⟩

/-- Witness for `C5_fail_closed`: a malformed response at a concrete
low-threat unauthenticated state yields deny_request with confidence 0. -/
theorem C5_fail_closed_witness :
    decisionOf (make_decision ["allow_request", "call_security", "deny_request"]
      (fun _ => "") "unclear" "error" (fun _ => none) (fun _ => []) (fun _ => none)
      DecisionLLMResult.malformed
      ⟨[], ⟨none, none, none, none, none, none, false⟩, "", none, none,
        some ⟨true, false, false, "low", ""⟩, "hello", "", false, true, none⟩)
      = some "deny_request" ∧
    confidenceOf (make_decision ["allow_request", "call_security", "deny_request"]
      (fun _ => "") "unclear" "error" (fun _ => none) (fun _ => []) (fun _ => none)
      DecisionLLMResult.malformed
      ⟨[], ⟨none, none, none, none, none, none, false⟩, "", none, none,
        some ⟨true, false, false, "low", ""⟩, "hello", "", false, true, none⟩)
      = some (some 0) :=
  C5_fail_closed _ _ _ _ _ _ _ _ _ ⟨true, false, false, "low", ""⟩
    rfl (by decide) rfl (Or.inr (Or.inl rfl))

/-- C7 (confirmed): whenever the session's vision schema reports
`threat_level == "high"`, `make_decision` returns
`decision == "call_security"` (with response "Security called")
unconditionally — for every profile, authentication flag,
classification oracle and decision set, i.e. it short-circuits
authentication, profile completeness and the external call. -/
theorem C7_high_threat_short_circuit
    (decisions : List String) (decisionMessages : String → String)
    (fallbackUnclear fallbackError : String)
    (cameraSidMap : String → Option String)
    (getAuthorizedDoors : String → List String)
    (getGreeting : String → Option String)
    (llm : DecisionLLMResult) (st : AgentState) (vs : VisionSchema)
    (hvs : st.vision_schema = some vs)
    (hth : vs.threat_level = "high") :
    make_decision decisions decisionMessages fallbackUnclear fallbackError
      cameraSidMap getAuthorizedDoors getGreeting llm st =
      Except.ok { st with decision := "call_security",
                          agent_response := "Security called" } := by
  unfold make_decision
  rw [hvs]
  simp [hth]

/-- Witness for `C7_high_threat_short_circuit` at a concrete
authenticated state with an empty profile and a failing oracle. -/
theorem C7_high_threat_witness :
    make_decision ["allow_request", "call_security", "deny_request"]
      (fun _ => "") "unclear" "error" (fun _ => none) (fun _ => []) (fun _ => none)
      DecisionLLMResult.failure
      ⟨[], ⟨none, none, none, none, none, none, true⟩, "", none, none,
        some ⟨true, true, true, "high", "knife"⟩, "hello", "", false, true, none⟩ =
      Except.ok
      ⟨[], ⟨none, none, none, none, none, none, true⟩, "call_security", none, none,
        some ⟨true, true, true, "high", "knife"⟩, "hello", "Security called", false, true, none⟩ :=
  C7_high_threat_short_circuit _ _ _ _ _ _ _ _ _ ⟨true, true, true, "high", "knife"⟩ rfl rfl

/-! ## History compaction and input intake (`src/nodes/input_nodes.py`) -/

/-- `SHORTEN_KEEP_MESSAGES` from `config/settings.py`. -/
def SHORTEN_KEEP_MESSAGES : Nat := 5

/-- Whether `pat` starts the character list `s`. -/
def hasPrefixChars : List Char → List Char → Bool
  | [], _ => true
  | _ :: _, [] => false
  | p :: ps, c :: cs => p == c && hasPrefixChars ps cs

/-- Whether `pat` occurs contiguously in the character list. -/
def hasSubChars (pat : List Char) : List Char → Bool
  | [] => hasPrefixChars pat []
  | c :: cs => hasPrefixChars pat (c :: cs) || hasSubChars pat cs

/-- Python substring test `pat in s`. -/
def strContains (s pat : String) : Bool := hasSubChars pat.toList s.toList

/-- The system-preamble search shared by both compaction strategies:
`m.type == "system" and "You are a helpful assistant" in m.content`. -/
def isSystemPreamble (m : Message) : Bool :=
  m.role = "system" && strContains m.content "You are a helpful assistant"

/-- `_shorten_history`: keep the found system preamble (if any), one
inserted marker message, and the last `SHORTEN_KEEP_MESSAGES` messages. -/
def shorten_history (msgs : List Message) : List Message :=
  let system_message := msgs.find? isSystemPreamble
  let recent := msgs.drop (msgs.length - SHORTEN_KEEP_MESSAGES)
  (match system_message with
   | some m => [m]
   | none => []) ++
  [⟨"system", "[HISTORY SHORTENED: Earlier conversation truncated to manage context length]"⟩] ++
  recent

/-- `_summarize_history`: `llm = none` models the except-path (the
summarization call raised: messages unchanged); `llm = some summary`
keeps the found system preamble (if any), one synthetic summary
message, and the last 4 messages. -/
def summarize_history (llm : Option String) (msgs : List Message) : List Message :=
  match llm with
  | none => msgs
  | some summary =>
    let recent := msgs.drop (msgs.length - 4)
    let system_message := msgs.find? isSystemPreamble
    (match system_message with
     | some m => [m]
     | none => []) ++
    [⟨"system", "[CONVERSATION SUMMARY: " ++ summary ++ "]"⟩] ++
    recent

/-- `summarize` node: skip when fewer than 8 messages, then dispatch on
`CURRENT_HISTORY_MODE` (`"shorten"`, anything else defaults to
summarize). -/
def summarize (mode : String) (llm : Option String)
    (msgs : List Message) : List Message :=
  if msgs.length < 8 then msgs
  else if mode = "shorten" then shorten_history msgs
  else summarize_history llm msgs

/-- Result of the input-validation LLM call in `receive_input`:
`ok result` is the extracted answer string, `exn` the except-path. -/
inductive ValidationOutcome where
  | ok (result : String)
  | exn
deriving Repr, DecidableEq

/-- The face check of `receive_input`:
`isinstance(vision_schema, dict)` and its `face_detected` entry
(default `False`). -/
def faceDetectedOf (v : Option VisionSchema) : Bool :=
  match v with
  | some s => s.face_detected
  | none => false

/-- `receive_input`: empty input sets `invalid_input` and stops;
otherwise validation classifies the input.  A valid classification
appends the user message, overwrites `vision_schema` with this turn's
analysis, then runs the face check, setting `invalid_input` when no
face is detected; `"unrelated"` sets the flag without mutation; an
unclear result or a validation exception defaults to valid (message
appended, no vision analysis). -/
def receive_input (validation : ValidationOutcome)
    (vision : Option VisionSchema) (st : AgentState) : AgentState :=
  let st0 := { st with invalid_input := false }
  if pyStrip st0.user_input = "" then { st0 with invalid_input := true }
  else
    match validation with
    | .exn => { st0 with messages := st0.messages ++ [⟨"human", st0.user_input⟩] }
    | .ok result =>
      if strContains result "valid" && !(strContains result "unrelated") then
        let st1 := { st0 with
          messages := st0.messages ++ [⟨"human", st0.user_input⟩],
          vision_schema := vision }
        if faceDetectedOf vision = false then { st1 with invalid_input := true }
        else st1
      else if strContains result "unrelated" then { st0 with invalid_input := true }
      else { st0 with messages := st0.messages ++ [⟨"human", st0.user_input⟩] }

/-! ## Claim theorems: history compaction and input intake -/

/-- C8 counterexample: with 8 messages (compaction triggered) in
summarize mode, a failed summarization call leaves the message list
untouched, so the resulting count equals the input count instead of
being strictly smaller — contradicting "whenever it is triggered
(count ≥ 8) the resulting message count is strictly less than the
input message count". -/
theorem C8_summarize_failure_counterexample :
    (List.replicate 8 (⟨"human", "hi"⟩ : Message)).length = 8 ∧
    summarize "summarize" none (List.replicate 8 ⟨"human", "hi"⟩) =
      List.replicate 8 ⟨"human", "hi"⟩ := by
  constructor
  · rfl
  · rfl

/-- C8 (amended): compaction is a no-op below 8 messages; at 8 or more
messages the shorten strategy, and the summarize strategy whenever its
external summarization call succeeds, produce strictly fewer messages;
when the summarization call fails the message list is left untouched
(count unchanged). -/
theorem C8_compaction_lengths (mode : String) (llm : Option String)
    (msgs : List Message) :
    (msgs.length < 8 → summarize mode llm msgs = msgs) ∧
    (8 ≤ msgs.length → mode = "shorten" →
      (summarize mode llm msgs).length < msgs.length) ∧
    (8 ≤ msgs.length → mode ≠ "shorten" → ∀ s, llm = some s →
      (summarize mode llm msgs).length < msgs.length) ∧
    (8 ≤ msgs.length → mode ≠ "shorten" → llm = none →
      summarize mode llm msgs = msgs) := by
  refine ⟨?_, ?_, ?_, ?_⟩
  · intro h
    simp [summarize, h]
  · intro h hmode
    rw [summarize, if_neg (by omega), if_pos hmode]
    cases hfind : msgs.find? isSystemPreamble with
    | none =>
      simp only [shorten_history, hfind, List.length_append, List.length_drop,
        List.nil_append, List.length_cons, List.length_nil, SHORTEN_KEEP_MESSAGES]
      omega
    | some m =>
      simp only [shorten_history, hfind, List.length_append, List.length_drop,
        List.length_cons, List.length_nil, SHORTEN_KEEP_MESSAGES]
      omega
  · intro h hmode s hs
    rw [summarize, if_neg (by omega), if_neg hmode, hs]
    cases hfind : msgs.find? isSystemPreamble with
    | none =>
      simp only [summarize_history, hfind, List.length_append, List.length_drop,
        List.nil_append, List.length_cons, List.length_nil]
      omega
    | some m =>
      simp only [summarize_history, hfind, List.length_append, List.length_drop,
        List.length_cons, List.length_nil]
      omega
  · intro h hmode hllm
    rw [summarize, if_neg (by omega), if_neg hmode, hllm]
    rfl

/-- Witness for `C8_compaction_lengths`: shorten mode strictly reduces
8 messages, and 3 messages are left untouched. -/
theorem C8_compaction_lengths_witness :
    (summarize "shorten" none (List.replicate 8 ⟨"human", "hi"⟩)).length <
      (List.replicate 8 (⟨"human", "hi"⟩ : Message)).length ∧
    summarize "summarize" (some "a summary") (List.replicate 3 ⟨"human", "hi"⟩) =
      List.replicate 3 ⟨"human", "hi"⟩ :=
  ⟨(C8_compaction_lengths "shorten" none (List.replicate 8 ⟨"human", "hi"⟩)).2.1
      (by simp) rfl,
   (C8_compaction_lengths "summarize" (some "a summary")
      (List.replicate 3 ⟨"human", "hi"⟩)).1 (by simp)⟩

/-- C10 (confirmed): for any non-blank input whose validation result is
classified valid (`"valid"` occurs, `"unrelated"` does not),
`receive_input` first appends the user message to the history and
overwrites `vision_schema` with this turn's analysis, and then sets
`invalid_input == true` exactly when the analysis reports
`face_detected == false` (including a failed analysis).  So
`invalid_input == true` does not imply the turn left the state
unchanged, and empty input is not the only condition setting the flag. -/
theorem C10_valid_input_no_face (result : String)
    (vision : Option VisionSchema) (st : AgentState)
    (hne : pyStrip st.user_input ≠ "")
    (hvalid : strContains result "valid" = true)
    (hunrel : strContains result "unrelated" = false) :
    (receive_input (ValidationOutcome.ok result) vision st).messages =
      st.messages ++ [⟨"human", st.user_input⟩] ∧
    (receive_input (ValidationOutcome.ok result) vision st).vision_schema = vision ∧
    ((receive_input (ValidationOutcome.ok result) vision st).invalid_input = true ↔
      faceDetectedOf vision = false) := by
  unfold receive_input
  cases hf : faceDetectedOf vision with
  | false => simp [hne, hvalid, hunrel, hf]
  | true => simp [hne, hvalid, hunrel, hf]

/-- Witness for `C10_valid_input_no_face`: a concrete valid-classified
turn whose vision analysis reports no face mutates the state and still
ends with `invalid_input == true`. -/
theorem C10_valid_input_no_face_witness :
    (receive_input (ValidationOutcome.ok "valid")
        (some ⟨false, false, false, "low", "nobody there"⟩)
        ⟨[], ⟨none, none, none, none, none, none, false⟩, "", none, none,
          none, "I came to see Mehmet", "", false, true, none⟩).messages =
      [] ++ [⟨"human", "I came to see Mehmet"⟩] ∧
    (receive_input (ValidationOutcome.ok "valid")
        (some ⟨false, false, false, "low", "nobody there"⟩)
        ⟨[], ⟨none, none, none, none, none, none, false⟩, "", none, none,
          none, "I came to see Mehmet", "", false, true, none⟩).vision_schema =
      some ⟨false, false, false, "low", "nobody there"⟩ ∧
    ((receive_input (ValidationOutcome.ok "valid")
        (some ⟨false, false, false, "low", "nobody there"⟩)
        ⟨[], ⟨none, none, none, none, none, none, false⟩, "", none, none,
          none, "I came to see Mehmet", "", false, true, none⟩).invalid_input = true ↔
      faceDetectedOf (some ⟨false, false, false, "low", "nobody there"⟩) = false) :=
  C10_valid_input_no_face "valid" (some ⟨false, false, false, "low", "nobody there"⟩)
    ⟨[], ⟨none, none, none, none, none, none, false⟩, "", none, none,
      none, "I came to see Mehmet", "", false, true, none⟩
    (by decide) (by decide) (by decide)

end Gatekeeper
